import Mathlib

/-!
Shallow embedding of the diving-social-app REST routes: the users router
and frontend server (src/frontend/server.js) and the auth and dives
routers (src/backend/routes/auth.js).  The definitions translate the
JavaScript handlers; the theorems settle the specification claims about
pagination arithmetic, UUID validation, field allow-listing, dive
creation counters, provider error translation, sort-key mapping, query
parsing and route dispatch.
-/

namespace DivingSocial

/-- Truthiness of an optional JavaScript string: `undefined`, `null` and
the empty string are falsy. -/
def jsFalsyStr : Option String → Bool
  | none => true
  | some s => s = ""

/-- Truthiness of an optional JavaScript number: `undefined`, `null` and
`0` are falsy. -/
def jsFalsyNum : Option ℚ → Bool
  | none => true
  | some q => q = 0

/-- Whitespace trim at both ends, modelling `String.prototype.trim`. -/
def jsTrim (s : String) : String :=
  let ws := fun c : Char => c = ' ' || c = '\t' || c = '\n' || c = '\r'
  ⟨((s.toList.dropWhile ws).reverse.dropWhile ws).reverse⟩

/-- Substring test, modelling `String.prototype.includes`. -/
def strIncludes (hay needle : String) : Bool :=
  hay.toList.tails.any (fun t => needle.toList.isPrefixOf t)

/-- Case-insensitive hexadecimal digit: the character class written in the
source regex as a hex group with the `i` flag. -/
def isHexDigitCI (c : Char) : Bool :=
  ('0' ≤ c && c ≤ '9') || ('a' ≤ c && c ≤ 'f') || ('A' ≤ c && c ≤ 'F')

/-- Version-nibble character class of the source regex: digits 1 to 5. -/
def isVersionNibble (c : Char) : Bool :=
  '1' ≤ c && c ≤ '5'

/-- Variant-nibble character class of the source regex: 8, 9, a or b,
case-insensitive through the `i` flag. -/
def isVariantNibble (c : Char) : Bool :=
  c = '8' || c = '9' || c = 'a' || c = 'b' || c = 'A' || c = 'B'

/-- Consume exactly `n` characters satisfying `p` and return the rest of
the input, failing when a character refuses `p` or the input runs out. -/
def chompRun (p : Char → Bool) : Nat → List Char → Option (List Char)
  | 0, cs => some cs
  | n + 1, c :: cs => if p c then chompRun p n cs else none
  | _ + 1, [] => none

/-- Consume one expected literal character. -/
def chompChar (c : Char) : List Char → Option (List Char)
  | c' :: cs => if c' = c then some cs else none
  | [] => none

/-- Remainder of the input after matching the anchored UUID pattern
`8 hex, dash, 4 hex, dash, version nibble + 3 hex, dash, variant
nibble + 3 hex, dash, 12 hex` from the front. -/
def uuidChomp (s : String) : Option (List Char) :=
  (chompRun isHexDigitCI 8 s.toList).bind fun r1 =>
  (chompChar '-' r1).bind fun r2 =>
  (chompRun isHexDigitCI 4 r2).bind fun r3 =>
  (chompChar '-' r3).bind fun r4 =>
  (chompRun isVersionNibble 1 r4).bind fun r5 =>
  (chompRun isHexDigitCI 3 r5).bind fun r6 =>
  (chompChar '-' r6).bind fun r7 =>
  (chompRun isVariantNibble 1 r7).bind fun r8 =>
  (chompRun isHexDigitCI 3 r8).bind fun r9 =>
  (chompChar '-' r9).bind fun r10 =>
  chompRun isHexDigitCI 12 r10

/-- The UUID regex test used by the detail routes: the whole string must
match the anchored pattern. -/
def uuidRegexTest (s : String) : Bool :=
  uuidChomp s = some ([] : List Char)

/-- Specification-side description of the UUID v4 textual pattern:
8-4-4-4-12 hex groups with the version nibble in 1 to 5 and the variant
nibble in 8, 9, a or b.  Stated from the specification words, to be
compared with the implemented regex. -/
def UuidShape (s : String) : Prop :=
  ∃ g1 g2 g3 g4 g5 : List Char,
    s.toList = g1 ++ '-' :: (g2 ++ '-' :: (g3 ++ '-' :: (g4 ++ '-' :: g5))) ∧
    g1.length = 8 ∧ g2.length = 4 ∧ g3.length = 4 ∧ g4.length = 4 ∧
    g5.length = 12 ∧
    g1.all isHexDigitCI = true ∧ g2.all isHexDigitCI = true ∧
    (∃ v t3, g3 = v :: t3 ∧ isVersionNibble v = true ∧
      t3.all isHexDigitCI = true) ∧
    (∃ w t4, g4 = w :: t4 ∧ isVariantNibble w = true ∧
      t4.all isHexDigitCI = true) ∧
    g5.all isHexDigitCI = true

/-- Decimal digit value. -/
def decDigitVal (c : Char) : Option Nat :=
  if '0' ≤ c && c ≤ '9' then some (c.toNat - Char.toNat '0') else none

/-- Hexadecimal digit value, case-insensitive. -/
def hexDigitVal (c : Char) : Option Nat :=
  if '0' ≤ c && c ≤ '9' then some (c.toNat - Char.toNat '0')
  else if 'a' ≤ c && c ≤ 'f' then some (c.toNat - Char.toNat 'a' + 10)
  else if 'A' ≤ c && c ≤ 'F' then some (c.toNat - Char.toNat 'A' + 10)
  else none

/-- Value of the longest digit run at the front of the input; `none` when
no digit is consumed. -/
def digitsVal (dv : Char → Option Nat) (base : Nat) (cs : List Char) : Option Nat :=
  let ds := cs.takeWhile (fun c => (dv c).isSome)
  if ds.isEmpty then none
  else some (ds.foldl (fun acc c => acc * base + (dv c).getD 0) 0)

/-- JavaScript `parseInt` with no explicit radix: skip leading whitespace,
read an optional sign, switch to base 16 after a `0x` prefix, then take
the longest digit run, ignoring any trailing garbage; `none` models `NaN`. -/
def jsParseInt (s : String) : Option Int :=
  let cs := s.toList.dropWhile (fun c => c = ' ' || c = '\t' || c = '\n' || c = '\r')
  let signed : Int × List Char :=
    match cs with
    | '-' :: rest => (-1, rest)
    | '+' :: rest => (1, rest)
    | _ => (1, cs)
  let based : (Char → Option Nat) × Nat × List Char :=
    match signed.2 with
    | '0' :: 'x' :: rest => (hexDigitVal, 16, rest)
    | '0' :: 'X' :: rest => (hexDigitVal, 16, rest)
    | _ => (decDigitVal, 10, signed.2)
  match digitsVal based.1 based.2.1 based.2.2 with
  | none => none
  | some v => some (signed.1 * v)

/-- Defaulting idiom `parseInt(q) || d` of the list endpoints: `NaN` and
`0` are falsy, every other parsed integer is kept. -/
def queryIntOrDefault (q : Option String) (d : Int) : Int :=
  match q with
  | none => d
  | some s =>
    match jsParseInt s with
    | none => d
    | some v => if v = 0 then d else v

/-- Parsed page and limit of `GET /api/users/list`: defaults 1 and 10. -/
def usersListPageLimit (pageQ limitQ : Option String) : Int × Int :=
  (queryIntOrDefault pageQ 1, queryIntOrDefault limitQ 10)

/-- Parsed page and limit of `GET /api/dives/list`: defaults 1 and 10. -/
def divesListPageLimit (pageQ limitQ : Option String) : Int × Int :=
  (queryIntOrDefault pageQ 1, queryIntOrDefault limitQ 10)

/-- Zero-based start offset computed by both list endpoints. -/
def startIndex (page limit : Int) : Int := (page - 1) * limit

/-- Inclusive range passed to the provider by both list endpoints. -/
def listRange (page limit : Int) : Int × Int :=
  (startIndex page limit, startIndex page limit + limit - 1)

/-- Pagination block assembled into every list-style response. -/
structure PaginationInfo where
  current_page : Int
  per_page : Int
  total_count : Int
  total_pages : Int
  has_next : Bool
  has_prev : Bool
  deriving Repr, DecidableEq

/-- Pagination block of `GET /api/users/list` for a provider row count. -/
def usersListPagination (page limit total : Int) : PaginationInfo :=
  { current_page := page
    per_page := limit
    total_count := total
    total_pages := ⌈(total : ℚ) / (limit : ℚ)⌉
    has_next := decide (startIndex page limit + limit < total)
    has_prev := decide (1 < page) }

/-- Pagination block of `GET /api/dives/list` for a provider row count. -/
def divesListPagination (page limit total : Int) : PaginationInfo :=
  { current_page := page
    per_page := limit
    total_count := total
    total_pages := ⌈(total : ℚ) / (limit : ℚ)⌉
    has_next := decide (startIndex page limit + limit < total)
    has_prev := decide (1 < page) }

/-- Order key and direction selected by the users-list sort parameter,
mirroring the defaulting `req.query.sort || 'created_at'` and the
if/else-if chain; `false` means descending. -/
def usersListOrder (sort : Option String) : String × Bool :=
  let s : String :=
    match sort with
    | none => "created_at"
    | some v => if v = "" then "created_at" else v
  if s = "total_dives" then ("total_dives", false)
  else if s = "name" then ("name", true)
  else ("created_at", false)

/-- Mutable profile fields accepted by `PUT /api/users/:id`, in source
order. -/
def allowedFields : List String :=
  ["name", "bio", "location", "diving_experience",
   "certifications", "social_links", "preferences"]

/-- Allow-list filter of the users update handler: walk the allow-list
and keep exactly the keys the request body defines.  The body is a map
from key to optional value, `none` standing for `undefined`. -/
def filterUpdate (body : String → Option String) : List (String × String) :=
  allowedFields.filterMap (fun f => (body f).map (fun v => (f, v)))

/-- Payload written to the users row: the filtered fields plus the
server-set `updated_at` timestamp. -/
def filteredWithTimestamp (body : String → Option String) (ts : String) :
    List (String × String) :=
  filterUpdate body ++ [("updated_at", ts)]

/-- Provider calls a handler can issue, recorded in order. -/
inductive ProviderCall where
  | selectUserById (id : String)
  | selectUserDives (id : String)
  | updateUserById (id : String) (payload : List (String × String))
  | selectDiveById (id : String)
  deriving Repr, DecidableEq

/-- Status and provider-call trace of a detail-route invocation. -/
structure HandlerResult where
  status : Nat
  calls : List ProviderCall
  deriving Repr, DecidableEq

/-- Handler of `GET /api/users/:id`: UUID guard, single-row read with the
no-rows code mapped to 404 and any other provider error to 500, then a
second statistics read on success. -/
def getUserByIdHandler (userId : String) (dbRow : Except String Unit) : HandlerResult :=
  if !uuidRegexTest userId then ⟨400, []⟩
  else
    match dbRow with
    | .error c =>
      if c = "PGRST116" then ⟨404, [.selectUserById userId]⟩
      else ⟨500, [.selectUserById userId]⟩
    | .ok _ => ⟨200, [.selectUserById userId, .selectUserDives userId]⟩

/-- Handler of `GET /api/dives/:id`: UUID guard, then a single joined
read with the same error translation. -/
def getDiveByIdHandler (diveId : String) (dbRow : Except String Unit) : HandlerResult :=
  if !uuidRegexTest diveId then ⟨400, []⟩
  else
    match dbRow with
    | .error c =>
      if c = "PGRST116" then ⟨404, [.selectDiveById diveId]⟩
      else ⟨500, [.selectDiveById diveId]⟩
    | .ok _ => ⟨200, [.selectDiveById diveId]⟩

/-- Result of the users update handler: status, the allowed-fields list
attached to the empty-update rejection, the payload sent to the provider
and the provider-call trace. -/
structure PutUsersResult where
  status : Nat
  allowed_fields : Option (List String)
  payload : Option (List (String × String))
  calls : List ProviderCall
  deriving Repr, DecidableEq

/-- Handler of `PUT /api/users/:id`: UUID guard, allow-list filter,
empty-update rejection naming the allowed fields, then the row update
with the usual error translation. -/
def putUserByIdHandler (userId : String) (body : String → Option String)
    (ts : String) (dbRow : Except String Unit) : PutUsersResult :=
  if !uuidRegexTest userId then ⟨400, none, none, []⟩
  else
    let filteredData := filterUpdate body
    if filteredData.length = 0 then ⟨400, some allowedFields, none, []⟩
    else
      let payload := filteredData ++ [("updated_at", ts)]
      match dbRow with
      | .error c =>
        if c = "PGRST116" then ⟨404, none, some payload, [.updateUserById userId payload]⟩
        else ⟨500, none, some payload, [.updateUserById userId payload]⟩
      | .ok _ => ⟨200, none, some payload, [.updateUserById userId payload]⟩

/-- Row of the dives table, restricted to the fields the claims are
about. -/
structure DiveRow where
  user_id : String
  dive_number : Nat
  max_depth : ℚ
  deriving Repr, DecidableEq

/-- Aggregate columns of a users row that the create handler updates. -/
structure UserStats where
  total_dives : Nat
  deepest_dive : Option ℚ
  deriving Repr, DecidableEq

/-- Database state touched by `POST /api/dives/create`: the dives table
and the acting user's stats row. -/
structure DiveDb where
  dives : List DiveRow
  user : UserStats
  deriving Repr, DecidableEq

/-- Request body of `POST /api/dives/create`, restricted to the required
fields the claims are about. -/
structure CreateDiveBody where
  dive_type : Option String
  location_name : Option String
  dive_date : Option String
  max_depth : Option ℚ

/-- Required create fields the handler finds missing, via the JavaScript
falsy test of `requiredFields.filter`. -/
def missingCreateFields (b : CreateDiveBody) : List String :=
  (([("dive_type", jsFalsyStr b.dive_type),
     ("location_name", jsFalsyStr b.location_name),
     ("dive_date", jsFalsyStr b.dive_date),
     ("max_depth", jsFalsyNum b.max_depth)].filter (fun p => p.2)).map Prod.fst)

/-- Condition under which the create handler puts `deepest_dive` into the
user update: the prior value is falsy, or the new depth strictly exceeds
it. -/
def shouldUpdateDeepest (prior : Option ℚ) (max_depth : ℚ) : Bool :=
  jsFalsyNum prior ||
    (match prior with
     | some p => decide (p < max_depth)
     | none => false)

/-- Outcome of `POST /api/dives/create` (authentication and provider
failures elided: the claims address local validation and the success
path). -/
inductive CreateDiveResult where
  | missingFields (fields : List String)
  | badDiveType
  | created (db : DiveDb) (dive_number : Nat) (is_new_depth_record : Bool)
  deriving Repr, DecidableEq

/-- Handler of `POST /api/dives/create` on a given database state:
required-field check, dive-type check, dive count read, dive insert with
the next per-user number, then the user stats update. -/
def createDive (db : DiveDb) (uid : String) (b : CreateDiveBody) : CreateDiveResult :=
  let missing := missingCreateFields b
  if missing.length > 0 then .missingFields missing
  else if !(b.dive_type = some "freediving" || b.dive_type = some "scuba") then .badDiveType
  else
    match b.max_depth with
    | none => .missingFields ["max_depth"]
    | some max_depth =>
      let currentDiveCount := (db.dives.filter (fun d => d.user_id = uid)).length
      let nextDiveNumber := currentDiveCount + 1
      let newDive : DiveRow := ⟨uid, nextDiveNumber, max_depth⟩
      let updDeepest : Option ℚ :=
        if shouldUpdateDeepest db.user.deepest_dive max_depth then some max_depth else none
      let newUser : UserStats :=
        { total_dives := nextDiveNumber
          deepest_dive :=
            match updDeepest with
            | some d => some d
            | none => db.user.deepest_dive }
      .created ⟨db.dives ++ [newDive], newUser⟩ nextDiveNumber
        (decide (updDeepest = some max_depth))

/-- Request body of `POST /api/auth/register`. -/
structure RegisterBody where
  email : Option String
  password : Option String
  name : Option String
  diving_experience : Option String
  location : Option String

/-- Session block issued by the provider on sign-up. -/
structure AuthSession where
  access_token : String
  refresh_token : String
  expires_at : Nat
  deriving Repr, DecidableEq

/-- Outcome of the provider sign-up call: a possibly absent session, or
an error message. -/
inductive SignUpOutcome where
  | ok (session : Option AuthSession)
  | err (message : String)

/-- Outcome of `POST /api/auth/register`. -/
inductive RegisterResult where
  | missingFields
  | shortPassword
  | emailExists
  | authFailed (message : String)
  | dbFailed
  | created (email name : String) (auth : Option AuthSession)
  deriving Repr, DecidableEq

/-- HTTP status of a register outcome. -/
def registerStatus : RegisterResult → Nat
  | .missingFields => 400
  | .shortPassword => 400
  | .emailExists => 409
  | .authFailed _ => 400
  | .dbFailed => 500
  | .created _ _ _ => 201

/-- Machine-readable code attached to a register outcome. -/
def registerCode : RegisterResult → Option String
  | .emailExists => some "EMAIL_ALREADY_EXISTS"
  | _ => none

/-- Handler of `POST /api/auth/register`: required-field check, password
policy, provider sign-up with the duplicate-email message mapped to 409,
users-row insert, then the 201 envelope. -/
def register (b : RegisterBody) (authOutcome : SignUpOutcome)
    (userInsertOk : Bool) : RegisterResult :=
  if jsFalsyStr b.email || jsFalsyStr b.password || jsFalsyStr b.name then .missingFields
  else
    match b.password with
    | none => .missingFields
    | some pw =>
      if pw.length < 6 then .shortPassword
      else
        match authOutcome with
        | .err msg =>
          if strIncludes msg "already registered" then .emailExists
          else .authFailed msg
        | .ok session =>
          if !userInsertOk then .dbFailed
          else .created (b.email.getD "") (b.name.getD "") session

/-- Row shape returned by the user search query. -/
structure SearchRow where
  name : String
  deriving Repr, DecidableEq

/-- Handler logic of `GET /api/users/search` taken in isolation: the
length guard on `q`, then the provider query whose `limit(20)` clause
caps the matching rows; returns status, results and `total_found`. -/
def searchUsersHandler (q : Option String) (matching : List SearchRow) :
    Nat × List SearchRow × Nat :=
  if jsFalsyStr q || (jsTrim (q.getD "")).length < 2 then (400, [], 0)
  else
    let results := matching.take 20
    (200, results, results.length)

/-- Method of an HTTP request, restricted to the verbs the users router
registers. -/
inductive Method where
  | GET
  | PUT
  deriving Repr, DecidableEq

/-- One segment of an Express path pattern: a literal or a parameter. -/
inductive Seg where
  | exact (s : String)
  | param
  deriving Repr, DecidableEq

/-- Handlers registered in the users router. -/
inductive UsersHandlerTag where
  | home
  | list
  | getById
  | putById
  | search
  deriving Repr, DecidableEq

/-- Route table of the users router in source registration order: `/`,
`/list`, `GET /:id`, `PUT /:id`, `/search`. -/
def usersRoutes : List (Method × List Seg × UsersHandlerTag) :=
  [(.GET, [], .home),
   (.GET, [.exact "list"], .list),
   (.GET, [.param], .getById),
   (.PUT, [.param], .putById),
   (.GET, [.exact "search"], .search)]

/-- Match an Express pattern against concrete path segments. -/
def segsMatch : List Seg → List String → Bool
  | [], [] => true
  | .exact s :: ps, x :: xs => s = x && segsMatch ps xs
  | .param :: ps, _ :: xs => segsMatch ps xs
  | _, _ => false

/-- Express dispatch: the first registered route whose method and pattern
match the request wins. -/
def dispatchUsers (m : Method) (path : List String) : Option UsersHandlerTag :=
  ((usersRoutes.filter (fun r => r.1 = m && segsMatch r.2.1 path)).map
    (fun r => r.2.2)).head?

/-- A valid create body with the given depth, used by the sequential
dive-creation scenario. -/
def scenarioBody (d : ℚ) : CreateDiveBody :=
  ⟨some "scuba", some "loc", some "2024-01-01", some d⟩

/-- Status produced by a single-segment GET on the users router, routing
the request through `dispatchUsers` to the matched handler. -/
def usersGetStatus (seg : String) (q : Option String)
    (dbRow : Except String Unit) (matching : List SearchRow) : Option Nat :=
  match dispatchUsers .GET [seg] with
  | some .home => some 200
  | some .list => some 200
  | some .getById => some (getUserByIdHandler seg dbRow).status
  | some .putById => none
  | some .search => some (searchUsersHandler q matching).1
  | none => some 404

section Lemmas

/-- An integer at least `n * limit` dominates the ceiling of
`total / limit`. -/
lemma ceil_div_le_of_le (limit total n : ℤ) (hl : 1 ≤ limit)
    (h : total ≤ n * limit) : ⌈(total : ℚ) / (limit : ℚ)⌉ ≤ n := by
  have hl0 : (0 : ℚ) < (limit : ℚ) := by
    have h1 : (1 : ℚ) ≤ (limit : ℚ) := by exact_mod_cast hl
    linarith
  rw [Int.ceil_le, div_le_iff₀ hl0]
  exact_mod_cast h

/-- The ceiling of `total / limit` covers `total` pages of size `limit`. -/
lemma le_ceil_div_mul (limit total : ℤ) (hl : 1 ≤ limit) :
    total ≤ ⌈(total : ℚ) / (limit : ℚ)⌉ * limit := by
  have hl0 : (0 : ℚ) < (limit : ℚ) := by
    have h1 : (1 : ℚ) ≤ (limit : ℚ) := by exact_mod_cast hl
    linarith
  have h1 := Int.le_ceil ((total : ℚ) / (limit : ℚ))
  rw [div_le_iff₀ hl0] at h1
  exact_mod_cast h1

/-- Keys kept by the allow-list walk are exactly the listed fields the
body defines, in list order. -/
lemma filterMap_keys (fs : List String) (body : String → Option String) :
    (fs.filterMap (fun f => (body f).map (fun v => (f, v)))).map Prod.fst
      = fs.filter (fun f => (body f).isSome) := by
  induction fs with
  | nil => simp
  | cons f fs ih => cases hb : body f <;> simp [hb, ih]

/-- A body defining none of the listed fields filters to the empty
payload. -/
lemma filterMap_eq_nil (fs : List String) (body : String → Option String)
    (h : ∀ f ∈ fs, body f = none) :
    fs.filterMap (fun f => (body f).map (fun v => (f, v))) = [] := by
  induction fs with
  | nil => simp
  | cons f fs ih =>
    have hf : body f = none := h f (by simp)
    simp only [List.filterMap_cons, hf, Option.map_none]
    exact ih (fun g hg => h g (by simp [hg]))

end Lemmas

/-- C2: for every page at least 1 and limit at least 1, both list
endpoints compute the zero-based start offset `(page - 1) * limit` and
the inclusive end offset `start + limit - 1`, and for every
provider-returned total the pagination block satisfies
`total_pages = ceil(total / limit)` — characterized as the least page
count covering `total` rows — `has_next` exactly when
`start + limit < total`, and `has_prev` exactly when `page > 1`. -/
theorem pagination_contract (page limit total : Int)
    (hp : 1 ≤ page) (hl : 1 ≤ limit) (ht : 0 ≤ total) :
    listRange page limit = ((page - 1) * limit, (page - 1) * limit + limit - 1) ∧
    usersListPagination page limit total = divesListPagination page limit total ∧
    (usersListPagination page limit total).total_pages
      = ⌈(total : ℚ) / (limit : ℚ)⌉ ∧
    total ≤ (usersListPagination page limit total).total_pages * limit ∧
    (∀ n : Int, total ≤ n * limit →
      (usersListPagination page limit total).total_pages ≤ n) ∧
    ((usersListPagination page limit total).has_next = true ↔
      startIndex page limit + limit < total) ∧
    ((usersListPagination page limit total).has_prev = true ↔ 1 < page) := by
  refine ⟨rfl, rfl, rfl, ?_, ?_, ?_, ?_⟩
  · exact le_ceil_div_mul limit total hl
  · exact fun n hn => ceil_div_le_of_le limit total n hl hn
  · simp [usersListPagination]
  · simp [usersListPagination]

/-- C2 witness at page 2, limit 10, total 25. -/
theorem pagination_contract_witness :
    listRange 2 10 = ((2 - 1) * 10, (2 - 1) * 10 + 10 - 1) ∧
    usersListPagination 2 10 25 = divesListPagination 2 10 25 ∧
    (usersListPagination 2 10 25).total_pages
      = ⌈((25 : ℤ) : ℚ) / ((10 : ℤ) : ℚ)⌉ ∧
    (25 : ℤ) ≤ (usersListPagination 2 10 25).total_pages * 10 ∧
    (∀ n : Int, 25 ≤ n * 10 → (usersListPagination 2 10 25).total_pages ≤ n) ∧
    ((usersListPagination 2 10 25).has_next = true ↔
      startIndex 2 10 + 10 < 25) ∧
    ((usersListPagination 2 10 25).has_prev = true ↔ (1 : ℤ) < 2) :=
  pagination_contract 2 10 25 (by decide) (by decide) (by decide)

/-- C3: the users update filter is a pure function of the request body:
its keys are exactly the allow-listed fields the body defines, in
allow-list order, followed by the server-set `updated_at`; a body
defining no allow-listed field makes the handler answer 400 naming the
allowed fields without any provider call; and the singleton payload
`name = x` filters to exactly `name` plus `updated_at`. -/
theorem users_update_filter :
    (∀ body : String → Option String,
      (filterUpdate body).map Prod.fst
        = allowedFields.filter (fun f => (body f).isSome)) ∧
    (∀ (body : String → Option String) (ts : String),
      (filteredWithTimestamp body ts).map Prod.fst
        = allowedFields.filter (fun f => (body f).isSome) ++ ["updated_at"]) ∧
    (∀ b1 b2 : String → Option String, (∀ f, b1 f = b2 f) →
      filterUpdate b1 = filterUpdate b2) ∧
    (∀ (id : String) (body : String → Option String) (ts : String)
        (dbRow : Except String Unit),
      uuidRegexTest id = true →
      (∀ f ∈ allowedFields, body f = none) →
      putUserByIdHandler id body ts dbRow = ⟨400, some allowedFields, none, []⟩) ∧
    (∀ ts : String,
      filteredWithTimestamp (fun f => if f = "name" then some "x" else none) ts
        = [("name", "x"), ("updated_at", ts)]) := by
  refine ⟨?_, ?_, ?_, ?_, ?_⟩
  · exact fun body => filterMap_keys allowedFields body
  · intro body ts
    simp [filteredWithTimestamp, filterUpdate, filterMap_keys allowedFields body]
  · intro b1 b2 h
    have hb : b1 = b2 := funext h
    rw [hb]
  · intro id body ts dbRow hid hnone
    have hfil : filterUpdate body = [] := filterMap_eq_nil allowedFields body hnone
    simp [putUserByIdHandler, hid, hfil]
  · intro ts
    simp [filteredWithTimestamp, filterUpdate, allowedFields]

/-- C3 witness: the empty body is rejected with the allowed-field list,
and the singleton `name` payload filters as stated. -/
theorem users_update_filter_witness :
    putUserByIdHandler "123e4567-e89b-12d3-a456-426614174000"
        (fun _ => none) "ts" (.ok ()) = ⟨400, some allowedFields, none, []⟩ ∧
    filteredWithTimestamp (fun f => if f = "name" then some "x" else none) "ts"
      = [("name", "x"), ("updated_at", "ts")] :=
  ⟨users_update_filter.2.2.2.1 "123e4567-e89b-12d3-a456-426614174000"
      (fun _ => none) "ts" (.ok ()) (by decide) (fun f _ => rfl),
   users_update_filter.2.2.2.2 "ts"⟩

/-- C7: the users-list sort parameter maps `total_dives` to a descending
order on `total_dives`, `name` to an ascending order on `name`, and
every other value — absence included — to the default descending order
on `created_at`. -/
theorem users_list_sort_mapping :
    usersListOrder (some "total_dives") = ("total_dives", false) ∧
    usersListOrder (some "name") = ("name", true) ∧
    usersListOrder none = ("created_at", false) ∧
    (∀ s : String, s ≠ "total_dives" → s ≠ "name" →
      usersListOrder (some s) = ("created_at", false)) := by
  refine ⟨rfl, rfl, rfl, ?_⟩
  intro s h1 h2
  by_cases he : s = ""
  · simp [usersListOrder, he]
  · simp [usersListOrder, he, h1, h2]

/-- C7 witness: an unrecognized sort value falls back to the default. -/
theorem users_list_sort_mapping_witness :
    usersListOrder (some "bogus") = ("created_at", false) :=
  users_list_sort_mapping.2.2.2 "bogus" (by decide) (by decide)

/-- C9: every payload the users update handler writes has its keys inside
the allow-list plus `updated_at`; in particular `id` and `email` are
never written, so the identifier and email survive every profile
update. -/
theorem profile_update_frame :
    (∀ (body : String → Option String) (ts f v : String),
      (f, v) ∈ filteredWithTimestamp body ts →
      f ∈ allowedFields ∨ f = "updated_at") ∧
    (∀ (body : String → Option String) (ts : String),
      "id" ∉ (filteredWithTimestamp body ts).map Prod.fst ∧
      "email" ∉ (filteredWithTimestamp body ts).map Prod.fst) ∧
    (∀ (id : String) (body : String → Option String) (ts : String)
        (dbRow : Except String Unit) (payload : List (String × String)),
      (putUserByIdHandler id body ts dbRow).payload = some payload →
      (∀ f ∈ payload.map Prod.fst, f ∈ allowedFields ++ ["updated_at"]) ∧
      "id" ∉ payload.map Prod.fst ∧ "email" ∉ payload.map Prod.fst) := by
  have hkeys : ∀ (body : String → Option String) (ts : String),
      (filteredWithTimestamp body ts).map Prod.fst
        = allowedFields.filter (fun f => (body f).isSome) ++ ["updated_at"] := by
    intro body ts
    simp [filteredWithTimestamp, filterUpdate, filterMap_keys allowedFields body]
  have hsub : ∀ (body : String → Option String) (ts : String),
      ∀ f ∈ (filteredWithTimestamp body ts).map Prod.fst,
        f ∈ allowedFields ∨ f = "updated_at" := by
    intro body ts f hf
    rw [hkeys body ts] at hf
    rcases List.mem_append.mp hf with h | h
    · exact Or.inl (List.mem_of_mem_filter h)
    · exact Or.inr (by simpa using h)
  have hnotin : ∀ (body : String → Option String) (ts : String) (g : String),
      g ∉ allowedFields → g ≠ "updated_at" →
      g ∉ (filteredWithTimestamp body ts).map Prod.fst := by
    intro body ts g hga hgu hmem
    rcases hsub body ts g hmem with h | h
    · exact hga h
    · exact hgu h
  refine ⟨?_, ?_, ?_⟩
  · intro body ts f v hmem
    exact hsub body ts f (List.mem_map_of_mem Prod.fst hmem)
  · intro body ts
    exact ⟨hnotin body ts "id" (by decide) (by decide),
           hnotin body ts "email" (by decide) (by decide)⟩
  · intro id body ts dbRow payload hp
    have hpay : payload = filteredWithTimestamp body ts := by
      by_cases hid : uuidRegexTest id
      · by_cases hfil : (filterUpdate body).length = 0
        · simp [putUserByIdHandler, hid, hfil] at hp
        · rcases dbRow with c | u
          · by_cases hc : c = "PGRST116"
            · simp [putUserByIdHandler, hid, hfil, hc, filteredWithTimestamp] at hp ⊢
              exact hp.symm
            · simp [putUserByIdHandler, hid, hfil, hc, filteredWithTimestamp] at hp ⊢
              exact hp.symm
          · simp [putUserByIdHandler, hid, hfil, filteredWithTimestamp] at hp ⊢
            exact hp.symm
      · simp [putUserByIdHandler, hid] at hp
    subst hpay
    refine ⟨?_, ?_, ?_⟩
    · intro f hf
      rcases hsub body ts f hf with h | h
      · exact List.mem_append.mpr (Or.inl h)
      · exact List.mem_append.mpr (Or.inr (by simp [h]))
    · exact hnotin body ts "id" (by decide) (by decide)
    · exact hnotin body ts "email" (by decide) (by decide)

/-- C9 witness: a concrete update writing `name` never writes `id` or
`email`. -/
theorem profile_update_frame_witness :
    "id" ∉ (filteredWithTimestamp
        (fun f => if f = "name" then some "x" else none) "ts").map Prod.fst ∧
    "email" ∉ (filteredWithTimestamp
        (fun f => if f = "name" then some "x" else none) "ts").map Prod.fst :=
  profile_update_frame.2.1 (fun f => if f = "name" then some "x" else none) "ts"

/-- C10: both list endpoints parse page and limit with the
`parseInt(q) || d` idiom: an absent, non-numeric or zero parameter is
replaced by the defaults 1 and 10, and a parsed nonzero integer is
taken as is. -/
theorem list_query_defaulting :
    (∀ pageQ limitQ : Option String,
      usersListPageLimit pageQ limitQ
        = (queryIntOrDefault pageQ 1, queryIntOrDefault limitQ 10) ∧
      divesListPageLimit pageQ limitQ
        = (queryIntOrDefault pageQ 1, queryIntOrDefault limitQ 10)) ∧
    (∀ d : Int, queryIntOrDefault none d = d) ∧
    (∀ (s : String) (d : Int), jsParseInt s = none →
      queryIntOrDefault (some s) d = d) ∧
    (∀ (s : String) (d : Int), jsParseInt s = some 0 →
      queryIntOrDefault (some s) d = d) ∧
    (∀ (s : String) (d v : Int), jsParseInt s = some v → v ≠ 0 →
      queryIntOrDefault (some s) d = v) := by
  refine ⟨fun pageQ limitQ => ⟨rfl, rfl⟩, fun d => rfl, ?_, ?_, ?_⟩
  · intro s d h
    simp [queryIntOrDefault, h]
  · intro s d h
    simp [queryIntOrDefault, h]
  · intro s d v h hv
    simp [queryIntOrDefault, h, hv]

/-- C10 witness: a non-numeric page falls back to 1, a zero limit falls
back to 10, and the parsed value 7 is taken. -/
theorem list_query_defaulting_witness :
    queryIntOrDefault (some "abc") 1 = 1 ∧
    queryIntOrDefault (some "0") 10 = 10 ∧
    queryIntOrDefault (some "7") 10 = 7 :=
  ⟨list_query_defaulting.2.2.1 "abc" 1 (by decide),
   list_query_defaulting.2.2.2.1 "0" 10 (by decide),
   list_query_defaulting.2.2.2.2 "7" 10 7 (by decide) (by decide)⟩

/-- C5 (code evidence): the users router registers `GET /:id` before
`GET /search`, so dispatch sends `GET /api/users/search` to the id
handler, where the literal `search` fails the UUID guard and every such
request is answered 400 whatever the query; the search handler itself —
were it reachable — rejects a short or missing `q` with 400 and answers
200 with at most 20 rows and a matching `total_found` for a two-letter
`q`. -/
theorem users_search_shadowed :
    dispatchUsers .GET ["search"] = some .getById ∧
    uuidRegexTest "search" = false ∧
    (∀ (q : Option String) (dbRow : Except String Unit)
        (matching : List SearchRow),
      usersGetStatus "search" q dbRow matching = some 400) ∧
    (∀ matching : List SearchRow,
      (searchUsersHandler (some "ab") matching).1 = 200 ∧
      (searchUsersHandler (some "ab") matching).2.1.length ≤ 20 ∧
      (searchUsersHandler (some "ab") matching).2.2
        = (searchUsersHandler (some "ab") matching).2.1.length) ∧
    (∀ matching : List SearchRow,
      (searchUsersHandler (some "a") matching).1 = 400) ∧
    (∀ matching : List SearchRow,
      (searchUsersHandler none matching).1 = 400) := by
  have hd : dispatchUsers .GET ["search"] = some .getById := by decide
  have hu : uuidRegexTest "search" = false := by decide
  refine ⟨hd, hu, ?_, ?_, ?_, ?_⟩
  · intro q dbRow matching
    simp [usersGetStatus, hd, getUserByIdHandler, hu]
  · intro matching
    have hab : ¬ ((jsTrim "ab").length < 2) := by decide
    refine ⟨by simp [searchUsersHandler, jsFalsyStr, hab], ?_,
      by simp [searchUsersHandler, jsFalsyStr, hab, List.length_take]⟩
    simp only [searchUsersHandler, jsFalsyStr]
    simp [hab, List.length_take]
  · intro matching
    have ha : (jsTrim "a").length < 2 := by decide
    simp [searchUsersHandler, ha]
  · intro matching
    simp [searchUsersHandler, jsFalsyStr]

/-- C6: with a valid UUID (and, for the update, a non-empty filtered
body), the detail handlers translate the provider code `PGRST116` to
404 and every other provider failure to 500, issue exactly one provider
call on any provider failure — no retry — and map the locally detected
invalid-identifier case to 400 with no provider call at all. -/
theorem provider_error_translation :
    (∀ id : String, uuidRegexTest id = true →
      (getUserByIdHandler id (.error "PGRST116")).status = 404 ∧
      (∀ c : String, c ≠ "PGRST116" →
        (getUserByIdHandler id (.error c)).status = 500) ∧
      (∀ c : String, (getUserByIdHandler id (.error c)).calls
        = [.selectUserById id])) ∧
    (∀ id : String, uuidRegexTest id = true →
      (getDiveByIdHandler id (.error "PGRST116")).status = 404 ∧
      (∀ c : String, c ≠ "PGRST116" →
        (getDiveByIdHandler id (.error c)).status = 500) ∧
      (∀ c : String, (getDiveByIdHandler id (.error c)).calls
        = [.selectDiveById id])) ∧
    (∀ (id : String) (body : String → Option String) (ts : String),
      uuidRegexTest id = true → filterUpdate body ≠ [] →
      (putUserByIdHandler id body ts (.error "PGRST116")).status = 404 ∧
      (∀ c : String, c ≠ "PGRST116" →
        (putUserByIdHandler id body ts (.error c)).status = 500) ∧
      (∀ c : String, (putUserByIdHandler id body ts (.error c)).calls
        = [.updateUserById id (filterUpdate body ++ [("updated_at", ts)])])) ∧
    (∀ (id : String) (dbRow : Except String Unit), uuidRegexTest id = false →
      (getUserByIdHandler id dbRow).status = 400 ∧
      (getUserByIdHandler id dbRow).calls = [] ∧
      (getDiveByIdHandler id dbRow).status = 400 ∧
      (getDiveByIdHandler id dbRow).calls = []) := by
  refine ⟨?_, ?_, ?_, ?_⟩
  · intro id hid
    refine ⟨by simp [getUserByIdHandler, hid], ?_, ?_⟩
    · intro c hc
      simp [getUserByIdHandler, hid, hc]
    · intro c
      by_cases hc : c = "PGRST116" <;> simp [getUserByIdHandler, hid, hc]
  · intro id hid
    refine ⟨by simp [getDiveByIdHandler, hid], ?_, ?_⟩
    · intro c hc
      simp [getDiveByIdHandler, hid, hc]
    · intro c
      by_cases hc : c = "PGRST116" <;> simp [getDiveByIdHandler, hid, hc]
  · intro id body ts hid hfil
    have hlen : ¬ (filterUpdate body).length = 0 := by
      simpa [List.length_eq_zero] using hfil
    refine ⟨by simp [putUserByIdHandler, hid, hlen], ?_, ?_⟩
    · intro c hc
      simp [putUserByIdHandler, hid, hlen, hc]
    · intro c
      by_cases hc : c = "PGRST116" <;> simp [putUserByIdHandler, hid, hlen, hc]
  · intro id dbRow hid
    refine ⟨?_, ?_, ?_, ?_⟩ <;>
      simp [getUserByIdHandler, getDiveByIdHandler, hid]

/-- C6 witness at a concrete valid UUID, a body updating `name`, and the
invalid identifier `not-a-uuid`. -/
theorem provider_error_translation_witness :
    (getUserByIdHandler "123e4567-e89b-12d3-a456-426614174000"
        (.error "PGRST116")).status = 404 ∧
    (getDiveByIdHandler "123e4567-e89b-12d3-a456-426614174000"
        (.error "XYZ")).status = 500 ∧
    (putUserByIdHandler "123e4567-e89b-12d3-a456-426614174000"
        (fun f => if f = "name" then some "x" else none) "ts"
        (.error "PGRST116")).status = 404 ∧
    (getUserByIdHandler "not-a-uuid" (.ok ())).status = 400 := by
  have h1 := provider_error_translation.1
      "123e4567-e89b-12d3-a456-426614174000" (by decide)
  have h2 := provider_error_translation.2.1
      "123e4567-e89b-12d3-a456-426614174000" (by decide)
  have h3 := provider_error_translation.2.2.1
      "123e4567-e89b-12d3-a456-426614174000"
      (fun f => if f = "name" then some "x" else none) "ts"
      (by decide) (by decide)
  have h4 := provider_error_translation.2.2.2 "not-a-uuid" (.ok ()) (by decide)
  exact ⟨h1.1, h2.2.1 "XYZ" (by decide), h3.1, h4.1⟩

/-- C8: registration answers 400 when email, password or name is missing
or when the password is shorter than 6 characters, 409 with the code
`EMAIL_ALREADY_EXISTS` when the provider reports the email as already
registered, and otherwise 201 carrying the created user and the session
auth fields. -/
theorem register_contract :
    (∀ (b : RegisterBody) (auth : SignUpOutcome) (ins : Bool),
      (jsFalsyStr b.email || jsFalsyStr b.password || jsFalsyStr b.name) = true →
      register b auth ins = .missingFields ∧
      registerStatus (register b auth ins) = 400) ∧
    (∀ (b : RegisterBody) (auth : SignUpOutcome) (ins : Bool) (pw : String),
      jsFalsyStr b.email = false → jsFalsyStr b.name = false →
      b.password = some pw → pw ≠ "" → pw.length < 6 →
      register b auth ins = .shortPassword ∧
      registerStatus (register b auth ins) = 400) ∧
    (∀ (b : RegisterBody) (ins : Bool) (pw msg : String),
      jsFalsyStr b.email = false → jsFalsyStr b.name = false →
      b.password = some pw → pw ≠ "" → 6 ≤ pw.length →
      strIncludes msg "already registered" = true →
      register b (.err msg) ins = .emailExists ∧
      registerStatus (register b (.err msg) ins) = 409 ∧
      registerCode (register b (.err msg) ins) = some "EMAIL_ALREADY_EXISTS") ∧
    (∀ (b : RegisterBody) (session : Option AuthSession) (pw : String),
      jsFalsyStr b.email = false → jsFalsyStr b.name = false →
      b.password = some pw → pw ≠ "" → 6 ≤ pw.length →
      register b (.ok session) true
        = .created (b.email.getD "") (b.name.getD "") session ∧
      registerStatus (register b (.ok session) true) = 201) := by
  refine ⟨?_, ?_, ?_, ?_⟩
  · intro b auth ins h
    have hr : register b auth ins = .missingFields := by
      simp [register, h]
    exact ⟨hr, by rw [hr]; rfl⟩
  · intro b auth ins pw he hn hpw hpw0 hlen
    have hfpw : jsFalsyStr (some pw) = false := by
      simp [jsFalsyStr, hpw0]
    have hr : register b auth ins = .shortPassword := by
      simp [register, he, hn, hfpw, hpw, hlen]
    exact ⟨hr, by rw [hr]; rfl⟩
  · intro b ins pw msg he hn hpw hpw0 hlen hmsg
    have hfpw : jsFalsyStr (some pw) = false := by
      simp [jsFalsyStr, hpw0]
    have hr : register b (.err msg) ins = .emailExists := by
      simp [register, he, hn, hfpw, hpw, Nat.not_lt.mpr hlen, hmsg]
    exact ⟨hr, by rw [hr]; rfl, by rw [hr]; rfl⟩
  · intro b session pw he hn hpw hpw0 hlen
    have hfpw : jsFalsyStr (some pw) = false := by
      simp [jsFalsyStr, hpw0]
    have hr : register b (.ok session) true
        = .created (b.email.getD "") (b.name.getD "") session := by
      simp [register, he, hn, hfpw, hpw, Nat.not_lt.mpr hlen]
    exact ⟨hr, by rw [hr]; rfl⟩

/-- C8 witness: a concrete missing-name body, a five-character password,
a duplicate registration, and a successful one. -/
theorem register_contract_witness :
    register ⟨some "a@b.c", some "secret", none, none, none⟩ (.ok none) true
      = .missingFields ∧
    register ⟨some "a@b.c", some "12345", some "Kim", none, none⟩ (.ok none) true
      = .shortPassword ∧
    registerStatus (register ⟨some "a@b.c", some "123456", some "Kim", none, none⟩
      (.err "User already registered") true) = 409 ∧
    registerCode (register ⟨some "a@b.c", some "123456", some "Kim", none, none⟩
      (.err "User already registered") true) = some "EMAIL_ALREADY_EXISTS" ∧
    registerStatus (register ⟨some "a@b.c", some "123456", some "Kim", none, none⟩
      (.ok (some ⟨"acc", "ref", 99⟩)) true) = 201 := by
  have h1 := register_contract.1
      ⟨some "a@b.c", some "secret", none, none, none⟩ (.ok none) true (by decide)
  have h2 := register_contract.2.1
      ⟨some "a@b.c", some "12345", some "Kim", none, none⟩ (.ok none) true "12345"
      (by decide) (by decide) rfl (by decide) (by decide)
  have h3 := register_contract.2.2.1
      ⟨some "a@b.c", some "123456", some "Kim", none, none⟩ true "123456"
      "User already registered"
      (by decide) (by decide) rfl (by decide) (by decide) (by decide)
  have h4 := register_contract.2.2.2
      ⟨some "a@b.c", some "123456", some "Kim", none, none⟩
      (some ⟨"acc", "ref", 99⟩) "123456"
      (by decide) (by decide) rfl (by decide) (by decide)
  exact ⟨h1.1, h2.1, h3.2.1, h3.2.2, h4.2⟩

section DiveCreationLemmas

/-- One create step on a user whose deepest dive is unset records the new
depth. -/
lemma createDive_step_none (ds : List DiveRow) (tot : Nat) (uid : String)
    (d : ℚ) (hd : d ≠ 0) :
    createDive ⟨ds, ⟨tot, none⟩⟩ uid (scenarioBody d)
      = .created
          ⟨ds ++ [⟨uid, (ds.filter (fun r => r.user_id = uid)).length + 1, d⟩],
           ⟨(ds.filter (fun r => r.user_id = uid)).length + 1, some d⟩⟩
          ((ds.filter (fun r => r.user_id = uid)).length + 1) true := by
  simp [createDive, scenarioBody, missingCreateFields, jsFalsyStr, jsFalsyNum,
    shouldUpdateDeepest, hd]

/-- One create step on a user whose deepest dive is a nonzero prior value
raises it to the maximum of the prior and the new depth. -/
lemma createDive_step_some (ds : List DiveRow) (tot : Nat) (p : ℚ)
    (hp : p ≠ 0) (uid : String) (d : ℚ) (hd : d ≠ 0) :
    createDive ⟨ds, ⟨tot, some p⟩⟩ uid (scenarioBody d)
      = .created
          ⟨ds ++ [⟨uid, (ds.filter (fun r => r.user_id = uid)).length + 1, d⟩],
           ⟨(ds.filter (fun r => r.user_id = uid)).length + 1, some (max p d)⟩⟩
          ((ds.filter (fun r => r.user_id = uid)).length + 1)
          (decide (p < d)) := by
  rcases lt_or_le p d with h | h
  · simp [createDive, scenarioBody, missingCreateFields, jsFalsyStr, jsFalsyNum,
      shouldUpdateDeepest, hd, hp, h, max_eq_right h.le]
  · simp [createDive, scenarioBody, missingCreateFields, jsFalsyStr, jsFalsyNum,
      shouldUpdateDeepest, hd, hp, not_lt.mpr h, max_eq_left h]

end DiveCreationLemmas

/-- C1: on successful dive creation the new dive number is the prior
per-user dive count plus one, the user's `total_dives` is set to that
number, `deepest_dive` is raised to the new `max_depth` exactly when the
prior value is unset or strictly exceeded, and the response flag
`is_new_depth_record` is true exactly in that case; moreover three
sequential dives on a fresh user get numbers 1, 2, 3, leave
`total_dives` at 3, and leave `deepest_dive` at the maximum of the three
depths. -/
theorem dive_creation_counters :
    (∀ (db : DiveDb) (uid : String) (b : CreateDiveBody) (d : ℚ)
        (db' : DiveDb) (n : Nat) (isRec : Bool),
      b.max_depth = some d →
      db.user.deepest_dive ≠ some 0 →
      createDive db uid b = .created db' n isRec →
      n = (db.dives.filter (fun r => r.user_id = uid)).length + 1 ∧
      db'.user.total_dives = n ∧
      db'.dives = db.dives ++ [⟨uid, n, d⟩] ∧
      db'.user.deepest_dive =
        (match db.user.deepest_dive with
         | none => some d
         | some p => if p < d then some d else some p) ∧
      (isRec = true ↔
        (db.user.deepest_dive = none ∨
          ∃ p, db.user.deepest_dive = some p ∧ p < d))) ∧
    (∀ (uid : String) (d1 d2 d3 : ℚ), d1 ≠ 0 → d2 ≠ 0 → d3 ≠ 0 →
      ∃ (db1 db2 db3 : DiveDb) (r1 r2 r3 : Bool),
        createDive ⟨[], ⟨0, none⟩⟩ uid (scenarioBody d1) = .created db1 1 r1 ∧
        createDive db1 uid (scenarioBody d2) = .created db2 2 r2 ∧
        createDive db2 uid (scenarioBody d3) = .created db3 3 r3 ∧
        db3.dives.map (fun r => r.dive_number) = [1, 2, 3] ∧
        db3.user.total_dives = 3 ∧
        db3.user.deepest_dive = some (max (max d1 d2) d3)) := by
  constructor
  · intro db uid b d db' n isRec hmd hprior hc
    rw [createDive, hmd] at hc
    by_cases hmiss : (missingCreateFields b).length > 0
    · simp [hmiss] at hc
    · simp only [hmiss, if_false] at hc
      by_cases hty : b.dive_type = some "freediving" ∨ b.dive_type = some "scuba"
      · have hty' : (b.dive_type = some "freediving" || b.dive_type = some "scuba") = true := by
          rcases hty with h | h <;> simp [h]
        simp only [hty', Bool.not_true, Bool.false_eq_true, if_false] at hc
        simp only [CreateDiveResult.created.injEq] at hc
        obtain ⟨hdb', hn, hrec⟩ := hc
        subst hdb'
        subst hn
        subst hrec
        refine ⟨rfl, rfl, rfl, ?_, ?_⟩
        · rcases hdd : db.user.deepest_dive with _ | p
          · simp [shouldUpdateDeepest, jsFalsyNum, hdd]
          · have hp0 : p ≠ 0 := by
              intro h
              exact hprior (by rw [hdd, h])
            by_cases hpd : p < d
            · simp [shouldUpdateDeepest, jsFalsyNum, hdd, hp0, hpd]
            · simp [shouldUpdateDeepest, jsFalsyNum, hdd, hp0, hpd]
        · rcases hdd : db.user.deepest_dive with _ | p
          · simp [shouldUpdateDeepest, jsFalsyNum, hdd]
          · have hp0 : p ≠ 0 := by
              intro h
              exact hprior (by rw [hdd, h])
            by_cases hpd : p < d
            · simp [shouldUpdateDeepest, jsFalsyNum, hdd, hp0, hpd]
            · simp [shouldUpdateDeepest, jsFalsyNum, hdd, hp0, hpd]
      · have hty' : (b.dive_type = some "freediving" || b.dive_type = some "scuba") = false := by
          push_neg at hty
          simp [hty.1, hty.2]
        simp [hty'] at hc
  · intro uid d1 d2 d3 hd1 hd2 hd3
    have hcnt0 : (([] : List DiveRow).filter (fun r => r.user_id = uid)).length = 0 := rfl
    have h1 := createDive_step_none [] 0 uid d1 hd1
    rw [hcnt0] at h1
    have hcnt1 : (([⟨uid, 0 + 1, d1⟩] : List DiveRow).filter
        (fun r => r.user_id = uid)).length = 1 := by
      simp
    have h2 := createDive_step_some [⟨uid, 0 + 1, d1⟩] (0 + 1) d1 hd1 uid d2 hd2
    rw [hcnt1] at h2
    have hm12 : max d1 d2 ≠ 0 := by
      rcases max_choice d1 d2 with h | h <;> rw [h] <;> assumption
    have hcnt2 : (([⟨uid, 0 + 1, d1⟩, ⟨uid, 1 + 1, d2⟩] : List DiveRow).filter
        (fun r => r.user_id = uid)).length = 2 := by
      simp
    have h3 := createDive_step_some [⟨uid, 0 + 1, d1⟩, ⟨uid, 1 + 1, d2⟩] (1 + 1)
      (max d1 d2) hm12 uid d3 hd3
    rw [hcnt2] at h3
    norm_num at h1 h2 h3
    refine ⟨_, _, _, _, _, _, h1, h2, h3, ?_, ?_, ?_⟩
    · simp
    · rfl
    · rfl

/-- C1 witness: a first dive of depth 10 on a fresh user gets number 1,
sets `total_dives` to 1 and records the depth, and the scenario
hypotheses hold at depths 10, 20, 15. -/
theorem dive_creation_counters_witness :
    ((1 : Nat) = (([] : List DiveRow).filter (fun r => r.user_id = "u")).length + 1 ∧
     (UserStats.mk 1 (some 10)).total_dives = 1 ∧
     (DiveDb.mk [⟨"u", 1, 10⟩] ⟨1, some 10⟩).dives = [] ++ [⟨"u", 1, (10 : ℚ)⟩] ∧
     (DiveDb.mk [⟨"u", 1, 10⟩] ⟨1, some 10⟩).user.deepest_dive =
       (match (DiveDb.mk [] ⟨0, none⟩).user.deepest_dive with
        | none => some (10 : ℚ)
        | some p => if p < 10 then some 10 else some p) ∧
     (true = true ↔
       ((DiveDb.mk [] ⟨0, none⟩).user.deepest_dive = none ∨
         ∃ p, (DiveDb.mk [] ⟨0, none⟩).user.deepest_dive = some p ∧ p < 10))) ∧
    (∃ (db1 db2 db3 : DiveDb) (r1 r2 r3 : Bool),
      createDive ⟨[], ⟨0, none⟩⟩ "u" (scenarioBody 10) = .created db1 1 r1 ∧
      createDive db1 "u" (scenarioBody 20) = .created db2 2 r2 ∧
      createDive db2 "u" (scenarioBody 15) = .created db3 3 r3 ∧
      db3.dives.map (fun r => r.dive_number) = [1, 2, 3] ∧
      db3.user.total_dives = 3 ∧
      db3.user.deepest_dive = some (max (max 10 20) 15)) :=
  ⟨dive_creation_counters.1 ⟨[], ⟨0, none⟩⟩ "u" (scenarioBody 10) 10
      ⟨[⟨"u", 1, 10⟩], ⟨1, some 10⟩⟩ 1 true rfl (by decide) (by decide),
   dive_creation_counters.2 "u" 10 20 15 (by decide) (by decide) (by decide)⟩

section UuidLemmas

/-- A fixed-length run consumes exactly a prefix of that length whose
characters all satisfy the class. -/
lemma chompRun_eq_some_iff (p : Char → Bool) (n : Nat) (cs r : List Char) :
    chompRun p n cs = some r ↔
      ∃ pre : List Char, cs = pre ++ r ∧ pre.length = n ∧ pre.all p = true := by
  induction n generalizing cs with
  | zero =>
    simp only [chompRun, Option.some.injEq]
    constructor
    · intro h
      exact ⟨[], by simp [h], rfl, rfl⟩
    · rintro ⟨pre, hcs, hlen, _⟩
      have hpre : pre = [] := List.length_eq_zero.mp hlen
      subst hpre
      simpa using hcs
  | succ n ih =>
    cases cs with
    | nil =>
      simp only [chompRun]
      constructor
      · intro h
        cases h
      · rintro ⟨pre, hcs, hlen, _⟩
        have hcontr := congrArg List.length hcs
        rw [List.length_append, hlen] at hcontr
        exact absurd hcontr (by simp; omega)
    | cons c cs =>
      simp only [chompRun]
      by_cases hc : p c
      · rw [if_pos hc, ih]
        constructor
        · rintro ⟨pre, hcs, hlen, hall⟩
          exact ⟨c :: pre, by simp [hcs], by simp [hlen], by simp [hc, hall]⟩
        · rintro ⟨pre, hcs, hlen, hall⟩
          cases pre with
          | nil => simp at hlen
          | cons c2 pre =>
            rw [List.cons_append] at hcs
            injection hcs with hc2 hcs
            subst hc2
            simp only [List.all_cons, Bool.and_eq_true] at hall
            exact ⟨pre, hcs, by simpa using hlen, hall.2⟩
      · rw [if_neg hc]
        constructor
        · intro h
          cases h
        · rintro ⟨pre, hcs, hlen, hall⟩
          cases pre with
          | nil => simp at hlen
          | cons c2 pre =>
            rw [List.cons_append] at hcs
            injection hcs with hc2 hcs
            subst hc2
            simp only [List.all_cons, Bool.and_eq_true] at hall
            exact absurd hall.1 hc
/-- A literal consumes exactly its own character. -/
lemma chompChar_eq_some_iff (c : Char) (cs r : List Char) :
    chompChar c cs = some r ↔ cs = c :: r := by
  cases cs with
  | nil =>
    simp only [chompChar]
    constructor
    · intro h
      cases h
    · intro h
      cases h
  | cons c2 cs =>
    simp only [chompChar]
    by_cases h : c2 = c
    · subst h
      simp
    · simp [h]

/-- A singleton run is one character of the class. -/
lemma chompRun_one_eq_some_iff (p : Char → Bool) (cs r : List Char) :
    chompRun p 1 cs = some r ↔ ∃ c, cs = c :: r ∧ p c = true := by
  rw [chompRun_eq_some_iff]
  constructor
  · rintro ⟨pre, hcs, hlen, hall⟩
    rcases List.length_eq_one.mp hlen with ⟨c, rfl⟩
    simp only [List.all_cons, List.all_nil, Bool.and_true] at hall
    exact ⟨c, by simpa using hcs, hall⟩
  · rintro ⟨c, hcs, hc⟩
    exact ⟨[c], by simpa using hcs, rfl, by simp [hc]⟩

end UuidLemmas

/-- C4: the implemented regex accepts exactly the strings of the
specified UUID v4 shape — 8-4-4-4-12 hex groups, version nibble in 1 to
5, variant nibble in 8, 9, a or b — every non-conforming identifier is
answered 400 by the detail routes with no provider call issued, the
sample identifier passes, and `not-a-uuid` fails. -/
theorem uuid_validation :
    (∀ s : String, uuidRegexTest s = true ↔ UuidShape s) ∧
    (∀ (id : String) (dbRow : Except String Unit), uuidRegexTest id = false →
      getUserByIdHandler id dbRow = ⟨400, []⟩ ∧
      getDiveByIdHandler id dbRow = ⟨400, []⟩ ∧
      (∀ (body : String → Option String) (ts : String),
        putUserByIdHandler id body ts dbRow = ⟨400, none, none, []⟩)) ∧
    uuidRegexTest "123e4567-e89b-12d3-a456-426614174000" = true ∧
    uuidRegexTest "not-a-uuid" = false := by
  refine ⟨?_, ?_, by decide, by decide⟩
  · intro s
    have hbase : uuidRegexTest s = true ↔ uuidChomp s = some [] := by
      simp [uuidRegexTest]
    rw [hbase]
    constructor
    · intro h
      simp only [uuidChomp, Option.bind_eq_some] at h
      obtain ⟨r1, h1, r2, h2, r3, h3, r4, h4, r5, h5, r6, h6, r7, h7,
        r8, h8, r9, h9, r10, h10, h11⟩ := h
      rw [chompRun_eq_some_iff] at h1 h3 h6 h9 h11
      rw [chompRun_one_eq_some_iff] at h5 h8
      rw [chompChar_eq_some_iff] at h2 h4 h7 h10
      obtain ⟨g1, hs1, hl1, ha1⟩ := h1
      obtain ⟨g2, hs2, hl2, ha2⟩ := h3
      obtain ⟨v, hs3, hv⟩ := h5
      obtain ⟨t3, hs4, hl3, ha3⟩ := h6
      obtain ⟨w, hs5, hw⟩ := h8
      obtain ⟨t4, hs6, hl4, ha4⟩ := h9
      obtain ⟨g5, hs7, hl5, ha5⟩ := h11
      refine ⟨g1, g2, v :: t3, w :: t4, g5, ?_, hl1, hl2, by simp [hl3],
        by simp [hl4], hl5, ha1, ha2,
        ⟨v, t3, rfl, hv, ha3⟩, ⟨w, t4, rfl, hw, ha4⟩, ha5⟩
      rw [hs1, h2, hs2, h4, hs3, hs4, h7, hs5, hs6, h10, hs7]
      simp
    · rintro ⟨g1, g2, g3, g4, g5, hs, hl1, hl2, hl3, hl4, hl5, ha1, ha2,
        ⟨v, t3, hg3, hv, ha3⟩, ⟨w, t4, hg4, hw, ha4⟩, ha5⟩
      subst hg3
      subst hg4
      have hlt3 : t3.length = 3 := by simpa using hl3
      have hlt4 : t4.length = 3 := by simpa using hl4
      have e1 : chompRun isHexDigitCI 8 s.toList
          = some ('-' :: (g2 ++ '-' :: ((v :: t3) ++ '-' :: ((w :: t4) ++ '-' :: g5)))) := by
        rw [chompRun_eq_some_iff]
        exact ⟨g1, by rw [hs], hl1, ha1⟩
      have e2 : chompRun isHexDigitCI 4 (g2 ++ '-' :: ((v :: t3) ++ '-' :: ((w :: t4) ++ '-' :: g5)))
          = some ('-' :: ((v :: t3) ++ '-' :: ((w :: t4) ++ '-' :: g5))) := by
        rw [chompRun_eq_some_iff]
        exact ⟨g2, rfl, hl2, ha2⟩
      have e3 : chompRun isVersionNibble 1 ((v :: t3) ++ '-' :: ((w :: t4) ++ '-' :: g5))
          = some (t3 ++ '-' :: ((w :: t4) ++ '-' :: g5)) := by
        rw [chompRun_one_eq_some_iff]
        exact ⟨v, by simp, hv⟩
      have e4 : chompRun isHexDigitCI 3 (t3 ++ '-' :: ((w :: t4) ++ '-' :: g5))
          = some ('-' :: ((w :: t4) ++ '-' :: g5)) := by
        rw [chompRun_eq_some_iff]
        exact ⟨t3, rfl, hlt3, ha3⟩
      have e5 : chompRun isVariantNibble 1 ((w :: t4) ++ '-' :: g5)
          = some (t4 ++ '-' :: g5) := by
        rw [chompRun_one_eq_some_iff]
        exact ⟨w, by simp, hw⟩
      have e6 : chompRun isHexDigitCI 3 (t4 ++ '-' :: g5)
          = some ('-' :: g5) := by
        rw [chompRun_eq_some_iff]
        exact ⟨t4, rfl, hlt4, ha4⟩
      have e7 : chompRun isHexDigitCI 12 g5 = some [] := by
        rw [chompRun_eq_some_iff]
        exact ⟨g5, by simp, hl5, ha5⟩
      have echar : ∀ (c : Char) (xs : List Char), chompChar c (c :: xs) = some xs := by
        intro c xs
        rw [chompChar_eq_some_iff]
      simp only [uuidChomp, e1, Option.some_bind, echar, e2, e3, e4, e5, e6, e7]
  · intro id dbRow hid
    refine ⟨?_, ?_, ?_⟩
    · simp [getUserByIdHandler, hid]
    · simp [getDiveByIdHandler, hid]
    · intro body ts
      simp [putUserByIdHandler, hid]

/-- C4 witness: the sample identifier satisfies the shape, and the
invalid one is rejected with no provider call. -/
theorem uuid_validation_witness :
    UuidShape "123e4567-e89b-12d3-a456-426614174000" ∧
    getUserByIdHandler "not-a-uuid" (.ok ()) = ⟨400, []⟩ :=
  ⟨(uuid_validation.1 "123e4567-e89b-12d3-a456-426614174000").mp (by decide),
   (uuid_validation.2.1 "not-a-uuid" (.ok ()) (by decide)).1⟩

end DivingSocial
